import Mathlib

/-!
Verification of the rifsaugmentation audio-augmentation library.

The Python source (src/rifsaugmentation) is shallowly embedded below.
Audio signals are modelled as lists of rationals (`Signal`); the global
numpy / `random` pseudo-random stream is modelled as a function
`us : Nat → ℚ` of draw positions, every draw lying in `[0, 1)`, together
with a current position `p : Nat`.  `np.random.seed(42)` is modelled by
the concrete stream `seedStream 42`, a deterministic function of the seed.
Python exceptions are modelled by the `PyError` type together with
`Except`; a possibly non-terminating loop is modelled by a fuel-indexed
interpreter returning `Option` (`none` = still looping after `fuel`
iterations).
-/

/-- Audio signal: a sequence of floating-point samples, modelled over ℚ. -/
abbrev Signal := List ℚ

/-- Python exceptions that the embedded code can raise. -/
inductive PyError where
  | attributeError
  | assertionError
  | parameterError
deriving DecidableEq, Repr

/-- One step of a linear congruential generator, modelling the
deterministic pseudo-random number generator behind `np.random.seed`. -/
def lcgStep (s : Nat) : Nat := (1103515245 * s + 12345) % 2147483648

/-- Iterate the LCG `i` times from a seed. -/
def lcgIter (seed : Nat) : Nat → Nat
  | 0 => seed
  | i + 1 => lcgStep (lcgIter seed i)

/-- Modelled from external numpy behaviour: `np.random.seed(s)` makes the
global draw stream a deterministic function of the seed `s`; each draw is
a value in `[0, 1)`.  Modelled here with an LCG. -/
def seedStream (seed : Nat) (i : Nat) : ℚ :=
  ((lcgIter seed (i + 1)) % 1048576 : ℚ) / 1048576

/-! ### NoiseAugmentation (augmentation.py lines 26–62) -/

/-- `np.roll(xs, s)`: circular right rotation, `roll(xs, s)[i] = xs[(i - s) mod n]`. -/
def npRoll (xs : List ℚ) (s : Nat) : List ℚ :=
  (List.range xs.length).map fun i =>
    xs.getD ((i + xs.length - s % xs.length) % xs.length) 0

/-- `np.resize(xs, m)`: repeat the array cyclically and truncate to length `m`
(an empty array resizes to zeros). -/
def npResize (xs : List ℚ) (m : Nat) : List ℚ :=
  (List.range m).map fun i => xs.getD (i % xs.length) 0

/-- Configuration stored by `NoiseAugmentation.__init__`. -/
structure NoiseConfig where
  mu : ℚ
  sd : ℚ
  noiseAudios : List Signal
deriving DecidableEq, Repr

namespace NoiseAugmentation

/-- `NoiseAugmentation.__init__`: stores `mu`, `sd` and the loaded noise
clips, then `assert len(self.noise_audios) > 0` — an empty library fails
at construction. -/
def init (noiseAudios : List Signal) (mu sd : ℚ) : Except PyError NoiseConfig :=
  if noiseAudios.length > 0 then .ok ⟨mu, sd, noiseAudios⟩
  else .error .assertionError

/-- `NoiseAugmentation.__call__`, with the stochastic choices made by the
call passed explicitly: `noise` is the clip chosen by `random.choice`,
`shift` the draw of `np.random.randint(0, len(noise))`, and `factor` the
value `np.abs(np.random.normal(mu, sd))`.  The body is
`roll` → `resize` → `audio + noise * factor`. -/
def call (noise : Signal) (shift : Nat) (factor : ℚ) (audio : Signal) : Signal :=
  let rolled := npRoll noise shift
  let resized := npResize rolled audio.length
  List.zipWith (fun a b => a + b * factor) audio resized

end NoiseAugmentation

-- sanity checks of the numpy models on concrete inputs
example : npRoll [1, 2, 3, 4] 1 = [4, 1, 2, 3] := by decide
example : npResize [1, 2, 3] 5 = [1, 2, 3, 1, 2] := by decide
example : NoiseAugmentation.call [10, 20] 1 (1/2) [1, 2, 3] = [11, 7, 13] := by
  simp [NoiseAugmentation.call, npRoll, npResize, List.range_succ]
  norm_num

/-! ### RoomSimulationAugmentation (augmentation.py lines 65–226) -/

/-- Room generated by `_generate_cuboid_room`: dimensions in meters and the
reverberation target RT60 in seconds. -/
structure RoomGeom where
  length : ℚ
  width : ℚ
  height : ℚ
  rt60 : ℚ
deriving DecidableEq, Repr

/-- A 3D point in a room. -/
structure Loc where
  x : ℚ
  y : ℚ
  z : ℚ
deriving DecidableEq, Repr

namespace RoomSimulationAugmentation

/-- `_truncated_normal(mean, sd, min, max)` calls external
`scipy.stats.truncnorm((min-mean)/sd, (max-mean)/sd, loc=mean, scale=sd).rvs(1)[0]`,
whose value is `mean + sd * Finv u` for a unit draw `u`, where `Finv` is the
(monotone) inverse CDF of the standard normal truncated to
`[(min-mean)/sd, (max-mean)/sd]`.  `Finv` maps `[0, 1]` onto that interval;
it is modelled here by the linear such map. -/
def truncatedNormal (mean sd lo hi u : ℚ) : ℚ :=
  mean + sd * ((lo - mean) / sd + (((hi - mean) / sd) - ((lo - mean) / sd)) * u)

/-- Modelled from the spec: `pra.inverse_sabine(rt60, room_dim)` (external
pyroomacoustics) derives a uniform wall absorption coefficient and a maximum
reflection order from RT60 and the room volume via the Sabine relation;
only determinism of the result matters here. -/
def inverseSabine (rt60 : ℚ) (l w h : ℚ) : ℚ × Nat :=
  let volume := l * w * h
  let surface := 2 * (l * w + l * h + w * h)
  let eAbsorption := 1611 / 10000 * volume / (surface * rt60)
  (eAbsorption, (rt60 * 10).num.toNat)

/-- `_generate_cuboid_room`: draws RT60 and the three dimensions, in this
order, as truncated normals from the global stream, then builds the room
(the absorption/order pair from `inverse_sabine` parameterizes the external
simulator and is not part of the returned geometry). -/
def generateCuboidRoom (us : Nat → ℚ) (p : Nat) : RoomGeom × Nat :=
  let rt60 := truncatedNormal (1/2) (1/5) (3/10) 1 (us p)
  let length := truncatedNormal 6 3 3 10 (us (p + 1))
  let width := truncatedNormal 5 2 3 10 (us (p + 2))
  let height := truncatedNormal (12/5) (3/5) (11/5) 5 (us (p + 3))
  (⟨length, width, height, rt60⟩, p + 4)

/-- `_generate_room` delegates to `_generate_cuboid_room`. -/
def generateRoom (us : Nat → ℚ) (p : Nat) : RoomGeom × Nat :=
  generateCuboidRoom us p

/-- Modelled from the spec: `room.is_inside(loc)` (external pyroomacoustics)
— the point must lie strictly inside the room boundary. -/
def isInside (room : RoomGeom) (loc : Loc) : Bool :=
  decide (0 < loc.x ∧ loc.x < room.length ∧ 0 < loc.y ∧ loc.y < room.width ∧
    0 < loc.z ∧ loc.z < room.height)

/-- Body of `_get_random_location` with the three `np.random.uniform(0, dim)`
draws passed as unit draws `u1, u2, u3 ∈ [0, 1)`: builds the candidate point
and then runs `assert room.is_inside(location)`, which raises
`AssertionError` when the predicate fails (there is no re-sampling). -/
def getRandomLocationFrom (room : RoomGeom) (u1 u2 u3 : ℚ) : Except PyError Loc :=
  let loc : Loc := ⟨u1 * room.length, u2 * room.width, u3 * room.height⟩
  if isInside room loc then .ok loc else .error .assertionError

/-- `_get_random_location`, consuming three draws from the global stream. -/
def getRandomLocation (room : RoomGeom) (us : Nat → ℚ) (p : Nat) :
    Except PyError Loc × Nat :=
  (getRandomLocationFrom room (us p) (us (p + 1)) (us (p + 2)), p + 3)

/-- Modelled from the spec: `room.simulate()` followed by reading
`room.mic_array.signals[0]` (external pyroomacoustics) — the image-source
simulation is a deterministic function of the room, the source and
microphone placements and the input signal; modelled as a distance-based
attenuation of the signal. -/
def simulate (room : RoomGeom) (src mic : Loc) (audio : Signal) : Signal :=
  let d2 := (src.x - mic.x) ^ 2 + (src.y - mic.y) ^ 2 + (src.z - mic.z) ^ 2
  audio.map fun a => a * (room.rt60 / (1 + d2))

/-- The `while True: try ... except AttributeError: continue` loop of
`__call__` (lines 99–116), run for at most `fuel` iterations: attempt `k`
generates a fresh room and places a source and a microphone; an
`AttributeError` raised by the external simulator on attempt `k` (modelled
by the oracle `fails k = true`) is caught and the loop retries, while the
placement `AssertionError` is not caught and propagates.  `none` means the
loop is still running after `fuel` attempts. -/
def callLoop (fails : Nat → Bool) (us : Nat → ℚ) :
    Nat → Nat → Nat → Option (Except PyError ((RoomGeom × Loc × Loc) × Nat))
  | 0, _, _ => none
  | fuel + 1, k, p =>
    let room := (generateRoom us p).1
    let p1 := (generateRoom us p).2
    if fails k then callLoop fails us fuel (k + 1) p1
    else
      match getRandomLocationFrom room (us p1) (us (p1 + 1)) (us (p1 + 2)) with
      | .error e => some (.error e)
      | .ok src =>
        match getRandomLocationFrom room (us (p1 + 3)) (us (p1 + 4)) (us (p1 + 5)) with
        | .error e => some (.error e)
        | .ok mic => some (.ok ((room, src, mic), p1 + 6))

/-- `__call__`: run the retry loop, then simulate the successful room and
return the microphone signal.  The method never reads the pre-sampled pool
`self.rooms` (passed here as `rooms`). -/
def call (rooms : List RoomGeom) (fails : Nat → Bool) (us : Nat → ℚ) (p : Nat)
    (audio : Signal) (fuel : Nat) : Option (Except PyError (Signal × Nat)) :=
  match callLoop fails us fuel 0 p with
  | none => none
  | some (.error e) => some (.error e)
  | some (.ok ((room, src, mic), p')) => some (.ok (simulate room src mic audio, p'))

/-- Sequential generation of the pre-sampled room pool
`[self._generate_room() for _ in range(n)]`. -/
def initRoomsAux (us : Nat → ℚ) : Nat → Nat → List RoomGeom × Nat
  | 0, p => ([], p)
  | n + 1, p =>
    let (room, p1) := generateRoom us p
    let (rest, p2) := initRoomsAux us n p1
    (room :: rest, p2)

/-- `__init__(n)`: `assert n > 0`, then `np.random.seed(42)` (the stream
becomes `seedStream 42` at position 0) and generation of the `n`-room pool. -/
def init (n : Nat) : Except PyError (List RoomGeom × Nat) :=
  if n = 0 then .error .assertionError
  else .ok (initRoomsAux (seedStream 42) n 0)

/-- The pool produced by a successful `__init__(n)`. -/
def initRoomsOk (n : Nat) : List RoomGeom :=
  (initRoomsAux (seedStream 42) n 0).1

/-- A whole run: construct the augmentation (seeding the global stream with
the hard-coded 42) and apply it once to `audio`, the call continuing to
consume the same seeded stream where construction left off. -/
def run (n : Nat) (fails : Nat → Bool) (audio : Signal) (fuel : Nat) :
    Except PyError (List RoomGeom × Option (Except PyError (Signal × Nat))) :=
  match init n with
  | .error e => .error e
  | .ok (rooms, p) => .ok (rooms, call rooms fails (seedStream 42) p audio fuel)

end RoomSimulationAugmentation

/-! ### ModifySpeedAugmentation (augmentation.py lines 229–261) -/

/-- Configuration stored by `ModifySpeedAugmentation.__init__`. -/
structure ModifySpeedConfig where
  speed : ℚ
deriving DecidableEq, Repr

namespace ModifySpeedAugmentation

/-- `ModifySpeedAugmentation.__init__(speed)`: the body only stores
`self.speed = speed` — it performs no validation and cannot fail, which the
`Except` result type makes explicit. -/
def init (speed : ℚ) : Except PyError ModifySpeedConfig :=
  .ok ⟨speed⟩

/-- Modelled from the spec: `librosa.effects.time_stretch(y, rate)`
(external librosa) — a phase-vocoder time stretch whose output length is
`round(len(y) / rate)`; sample values are modelled by nearest-index
resampling. -/
def timeStretch (audio : Signal) (rate : ℚ) : Signal :=
  (List.range (round ((audio.length : ℚ) / rate)).toNat).map fun i =>
    audio.getD (⌊(i : ℚ) * rate⌋).toNat 0

/-- `ModifySpeedAugmentation.__call__`: unconditionally calls
`librosa.effects.time_stretch(audio_array, rate=self.speed)`, which rejects
a non-positive rate with a `ParameterError` at call time. -/
def call (cfg : ModifySpeedConfig) (audio : Signal) : Except PyError Signal :=
  if cfg.speed ≤ 0 then .error .parameterError
  else .ok (timeStretch audio cfg.speed)

end ModifySpeedAugmentation

/-! ### augment_all (augment_all.py lines 19–124)

The per-file augmentation pipeline: `augment_all` first constructs the
configured transforms, in the fixed order room simulation → noise → speed,
and then folds each file's signal through the list.  The per-call behaviour
of each constructed transform is abstracted as a function
`Signal → Signal` (`roomT`, `noiseT`, `speedT`); what is modelled here is
the construction logic and the application order. -/

/-- The transform list built by `augment_all`:
`if with_room_simulation: augments.append(RoomSimulationAugmentation(n=100))`,
`if noise_path: augments.append(NoiseAugmentation(noise_path, mu=0.25, sd=0.1))`
(whose constructor fails on an empty noise library),
`if speed != 1.0: augments.append(ModifySpeedAugmentation(speed))`. -/
def buildAugments (withRoomSimulation : Bool) (noiseAudios : Option (List Signal))
    (speed : ℚ) (roomT noiseT speedT : Signal → Signal) :
    Except PyError (List (Signal → Signal)) := do
  let roomPart := if withRoomSimulation then [roomT] else []
  let noisePart ← match noiseAudios with
    | none => pure []
    | some lib =>
      match NoiseAugmentation.init lib (1/4) (1/10) with
      | .error e => Except.error e
      | .ok _ => pure [noiseT]
  let speedPart := if speed ≠ 1 then [speedT] else []
  pure (roomPart ++ noisePart ++ speedPart)

/-- `for augmentation in augments: audio_array = augmentation(audio_array)`. -/
def applyAugments (augs : List (Signal → Signal)) (audio : Signal) : Signal :=
  augs.foldl (fun a t => t a) audio

/-- The whole per-file loop of `augment_all`: build the transforms once,
then map every discovered file's signal through them; construction failure
aborts the run before any file is processed. -/
def augmentAllRun (withRoomSimulation : Bool) (noiseAudios : Option (List Signal))
    (speed : ℚ) (roomT noiseT speedT : Signal → Signal) (files : List Signal) :
    Except PyError (List Signal) := do
  let augs ← buildAugments withRoomSimulation noiseAudios speed roomT noiseT speedT
  pure (files.map (applyAugments augs))

/-! ### Helper lemmas -/

theorem getD_range_map (f : Nat → ℚ) (m i : Nat) (h : i < m) :
    ((List.range m).map f).getD i 0 = f i := by
  rw [List.getD_eq_getElem?_getD, List.getElem?_map, List.getElem?_range h]
  rfl

theorem getD_zipWith (g : ℚ → ℚ → ℚ) (as bs : List ℚ) (i : Nat)
    (h1 : i < as.length) (h2 : i < bs.length) :
    (List.zipWith g as bs).getD i 0 = g (as.getD i 0) (bs.getD i 0) := by
  rw [List.getD_eq_getElem?_getD, List.getElem?_zipWith']
  rw [List.getElem?_eq_getElem h1, List.getElem?_eq_getElem h2]
  simp [List.getD_eq_getElem?_getD, List.getElem?_eq_getElem, h1, h2]

theorem npRoll_length (xs : List ℚ) (s : Nat) : (npRoll xs s).length = xs.length := by
  simp [npRoll]

theorem npResize_length (xs : List ℚ) (m : Nat) : (npResize xs m).length = m := by
  simp [npResize]

theorem npResize_getD (xs : List ℚ) (m i : Nat) (h : i < m) :
    (npResize xs m).getD i 0 = xs.getD (i % xs.length) 0 :=
  getD_range_map _ m i h

theorem npRoll_getD (xs : List ℚ) (s i : Nat) (h : i < xs.length) :
    (npRoll xs s).getD i 0 =
      xs.getD ((i + xs.length - s % xs.length) % xs.length) 0 :=
  getD_range_map _ xs.length i h

/-! ### C2: the noise mixer -/

/-- C2: for every input signal and every noise clip (shorter, equal or
longer than the input), `NoiseAugmentation.__call__` returns an output of
exactly the input's length whose `i`-th sample is
`signal[i] + noise_segment[i] * gain`, where the noise segment is the clip
circularly rotated by the drawn offset (`shift < len(clip)`, the range of
`np.random.randint(0, len(noise))`) and circularly extended to the input
length; the mixer never fails on a length mismatch. -/
theorem noise_mixer_spec (noise audio : Signal) (shift : Nat) (factor : ℚ)
    (hs : shift < noise.length) :
    (NoiseAugmentation.call noise shift factor audio).length = audio.length ∧
    ∀ i, i < audio.length →
      (NoiseAugmentation.call noise shift factor audio).getD i 0 =
        audio.getD i 0 +
          noise.getD ((i % noise.length + noise.length - shift) % noise.length) 0
            * factor := by
  have hn : 0 < noise.length := Nat.lt_of_le_of_lt (Nat.zero_le _) hs
  constructor
  · simp [NoiseAugmentation.call, npResize_length]
  · intro i hi
    have h2 : i < (npResize (npRoll noise shift) audio.length).length := by
      rw [npResize_length]; exact hi
    show (List.zipWith (fun a b => a + b * factor) audio
      (npResize (npRoll noise shift) audio.length)).getD i 0 = _
    rw [getD_zipWith _ _ _ _ hi h2, npResize_getD _ _ _ hi, npRoll_length,
      npRoll_getD _ _ _ (Nat.mod_lt _ hn), Nat.mod_eq_of_lt hs]

/-- Witness for C2 at a clip shorter than the input. -/
theorem noise_mixer_spec_witness :
    1 < ([10, 20] : Signal).length ∧
    (NoiseAugmentation.call [10, 20] 1 (1/2) [1, 2, 3]).length =
      ([1, 2, 3] : Signal).length ∧
    (NoiseAugmentation.call [10, 20] 1 (1/2) [1, 2, 3]).getD 0 0 =
      ([1, 2, 3] : Signal).getD 0 0 +
        ([10, 20] : Signal).getD ((0 % 2 + 2 - 1) % 2) 0 * (1/2) :=
  ⟨by decide, (noise_mixer_spec [10, 20] [1, 2, 3] 1 (1/2) (by decide)).1,
    (noise_mixer_spec [10, 20] [1, 2, 3] 1 (1/2) (by decide)).2 0 (by decide)⟩

/-! ### C3: room-geometry invariants -/

theorem truncatedNormal_eval (mean sd lo hi u : ℚ) (hsd : sd ≠ 0) :
    RoomSimulationAugmentation.truncatedNormal mean sd lo hi u =
      lo + (hi - lo) * u := by
  unfold RoomSimulationAugmentation.truncatedNormal
  field_simp
  ring

theorem truncatedNormal_bounds (mean sd lo hi u : ℚ) (hsd : sd ≠ 0)
    (hlohi : lo < hi) (h0 : 0 ≤ u) (h1 : u < 1) :
    lo ≤ RoomSimulationAugmentation.truncatedNormal mean sd lo hi u ∧
      RoomSimulationAugmentation.truncatedNormal mean sd lo hi u < hi := by
  rw [truncatedNormal_eval mean sd lo hi u hsd]
  constructor
  · nlinarith
  · nlinarith

/-- Support of every quantity sampled by `_generate_cuboid_room`, assuming
only that the unit draws lie in `[0, 1)`. -/
theorem generateRoom_bounds (us : Nat → ℚ) (p : Nat)
    (h : ∀ i, 0 ≤ us i ∧ us i < 1) :
    (3 ≤ (RoomSimulationAugmentation.generateRoom us p).1.length ∧
      (RoomSimulationAugmentation.generateRoom us p).1.length < 10) ∧
    (3 ≤ (RoomSimulationAugmentation.generateRoom us p).1.width ∧
      (RoomSimulationAugmentation.generateRoom us p).1.width < 10) ∧
    (11/5 ≤ (RoomSimulationAugmentation.generateRoom us p).1.height ∧
      (RoomSimulationAugmentation.generateRoom us p).1.height < 5) ∧
    (3/10 ≤ (RoomSimulationAugmentation.generateRoom us p).1.rt60 ∧
      (RoomSimulationAugmentation.generateRoom us p).1.rt60 < 1) := by
  refine ⟨?_, ?_, ?_, ?_⟩
  · exact truncatedNormal_bounds 6 3 3 10 (us (p + 1)) (by norm_num) (by norm_num)
      (h (p + 1)).1 (h (p + 1)).2
  · exact truncatedNormal_bounds 5 2 3 10 (us (p + 2)) (by norm_num) (by norm_num)
      (h (p + 2)).1 (h (p + 2)).2
  · exact truncatedNormal_bounds (12/5) (3/5) (11/5) 5 (us (p + 3)) (by norm_num)
      (by norm_num) (h (p + 3)).1 (h (p + 3)).2
  · exact truncatedNormal_bounds (1/2) (1/5) (3/10) 1 (us p) (by norm_num)
      (by norm_num) (h p).1 (h p).2

/-- C3: every room geometry sampled by `RoomSimulationAugmentation`
satisfies `3 ≤ length ≤ 10`, `3 ≤ width ≤ 10`, `2.2 ≤ height ≤ 5`, and its
sampled RT60 lies in `(0, 1.5]`, for every state of the random stream. -/
theorem room_geometry_invariant (us : Nat → ℚ) (p : Nat)
    (h : ∀ i, 0 ≤ us i ∧ us i < 1) :
    (3 ≤ (RoomSimulationAugmentation.generateRoom us p).1.length ∧
      (RoomSimulationAugmentation.generateRoom us p).1.length ≤ 10) ∧
    (3 ≤ (RoomSimulationAugmentation.generateRoom us p).1.width ∧
      (RoomSimulationAugmentation.generateRoom us p).1.width ≤ 10) ∧
    (11/5 ≤ (RoomSimulationAugmentation.generateRoom us p).1.height ∧
      (RoomSimulationAugmentation.generateRoom us p).1.height ≤ 5) ∧
    (0 < (RoomSimulationAugmentation.generateRoom us p).1.rt60 ∧
      (RoomSimulationAugmentation.generateRoom us p).1.rt60 ≤ 3/2) := by
  obtain ⟨⟨l1, l2⟩, ⟨w1, w2⟩, ⟨h1, h2⟩, ⟨r1, r2⟩⟩ := generateRoom_bounds us p h
  exact ⟨⟨l1, le_of_lt l2⟩, ⟨w1, le_of_lt w2⟩, ⟨h1, le_of_lt h2⟩,
    ⟨lt_of_lt_of_le (by norm_num) r1, le_of_lt (lt_of_lt_of_le r2 (by norm_num))⟩⟩

/-- Witness for C3 at the constant draw 1/2. -/
theorem room_geometry_invariant_witness :
    (0 ≤ (1/2 : ℚ) ∧ (1/2 : ℚ) < 1) ∧
    (3 ≤ (RoomSimulationAugmentation.generateRoom (fun _ => 1/2) 0).1.length ∧
      (RoomSimulationAugmentation.generateRoom (fun _ => 1/2) 0).1.length ≤ 10) :=
  ⟨⟨by norm_num, by norm_num⟩,
    (room_geometry_invariant (fun _ => 1/2) 0
      (fun _ => ⟨by norm_num, by norm_num⟩)).1⟩

/-! ### C1: the retry loop of `__call__` -/

/-- Test whether a loop result is a normal (non-exceptional) completion. -/
def isOkSome {α : Type} : Option (Except PyError α) → Bool
  | some (.ok _) => true
  | _ => false

/-- With every attempt raising `AttributeError`, the retry loop is still
running after any number of iterations: no retry cap, no typed error. -/
theorem callLoop_allFail (us : Nat → ℚ) :
    ∀ fuel k p, RoomSimulationAugmentation.callLoop (fun _ => true) us fuel k p = none := by
  intro fuel
  induction fuel with
  | zero => intro k p; rfl
  | succ n ih =>
    intro k p
    simp only [RoomSimulationAugmentation.callLoop, if_true]
    exact ih (k + 1) ((RoomSimulationAugmentation.generateRoom us p).2)

/-- A candidate placement built from draws strictly inside `(0, 1)` in a room
with positive dimensions passes the inside-room assertion. -/
theorem getRandomLocationFrom_ok (room : RoomGeom) (u1 u2 u3 : ℚ)
    (hL : 0 < room.length) (hW : 0 < room.width) (hH : 0 < room.height)
    (h1 : 0 < u1 ∧ u1 < 1) (h2 : 0 < u2 ∧ u2 < 1) (h3 : 0 < u3 ∧ u3 < 1) :
    RoomSimulationAugmentation.getRandomLocationFrom room u1 u2 u3 =
      .ok ⟨u1 * room.length, u2 * room.width, u3 * room.height⟩ := by
  have hin : RoomSimulationAugmentation.isInside room
      ⟨u1 * room.length, u2 * room.width, u3 * room.height⟩ = true := by
    simp only [RoomSimulationAugmentation.isInside, decide_eq_true_eq]
    refine ⟨mul_pos h1.1 hL, ?_, mul_pos h2.1 hW, ?_, mul_pos h3.1 hH, ?_⟩ <;> nlinarith
  simp [RoomSimulationAugmentation.getRandomLocationFrom, hin]

/-- An attempt on which the simulator raises no `AttributeError` completes
normally, provided all draws are strictly inside `(0, 1)`. -/
theorem callLoop_attempt_ok (fails : Nat → Bool) (us : Nat → ℚ)
    (h : ∀ i, 0 < us i ∧ us i < 1) (fuel k p : Nat) (hk : fails k = false) :
    isOkSome (RoomSimulationAugmentation.callLoop fails us (fuel + 1) k p) = true := by
  have hb := generateRoom_bounds us p (fun i => ⟨le_of_lt (h i).1, (h i).2⟩)
  have hL : 0 < (RoomSimulationAugmentation.generateRoom us p).1.length :=
    lt_of_lt_of_le (by norm_num) hb.1.1
  have hW : 0 < (RoomSimulationAugmentation.generateRoom us p).1.width :=
    lt_of_lt_of_le (by norm_num) hb.2.1.1
  have hH : 0 < (RoomSimulationAugmentation.generateRoom us p).1.height :=
    lt_of_lt_of_le (by norm_num) hb.2.2.1.1
  simp only [RoomSimulationAugmentation.callLoop, hk, Bool.false_eq_true, if_false,
    getRandomLocationFrom_ok _ _ _ _ hL hW hH (h _) (h _) (h _)]
  rfl

/-- C1 amended: the retry loop of `RoomSimulationAugmentation.__call__` is
unbounded — if every attempt raises `AttributeError` it never terminates,
with no retry cap and no typed `GeometryError` — and it terminates normally
as soon as some attempt escapes the `AttributeError` oracle (given in-range
placement draws). -/
theorem roomsim_retry_unbounded :
    (∀ (us : Nat → ℚ) (fuel k p : Nat),
      RoomSimulationAugmentation.callLoop (fun _ => true) us fuel k p = none) ∧
    (∀ (fails : Nat → Bool) (us : Nat → ℚ), (∀ i, 0 < us i ∧ us i < 1) →
      ∀ d k p, fails (k + d) = false →
        isOkSome (RoomSimulationAugmentation.callLoop fails us (d + 1) k p) = true) := by
  refine ⟨callLoop_allFail, fun fails us h d => ?_⟩
  induction d with
  | zero =>
    intro k p hk
    exact callLoop_attempt_ok fails us h 0 k p (by simpa using hk)
  | succ n ih =>
    intro k p hk
    cases hfk : fails k with
    | false => exact callLoop_attempt_ok fails us h (n + 1) k p hfk
    | true =>
      have hk' : fails ((k + 1) + n) = false := by
        have : (k + 1) + n = k + (n + 1) := by omega
        rw [this]; exact hk
      have h2 := ih (k + 1) ((RoomSimulationAugmentation.generateRoom us p).2) hk'
      simp only [RoomSimulationAugmentation.callLoop, hfk, if_true]
      exact h2

/-- C1 counterexample: with every attempt failing, the loop is still running
after 2000 iterations — well past any fixed retry cap such as 1000 — and no
`GeometryError` has been raised (the loop cannot produce one). -/
theorem roomsim_no_retry_cap_cex :
    RoomSimulationAugmentation.callLoop (fun _ => true) (fun _ => 1/2) 2000 0 0 = none :=
  callLoop_allFail (fun _ => 1/2) 2000 0 0

/-- Witness for the amended C1. -/
theorem roomsim_retry_unbounded_witness :
    RoomSimulationAugmentation.callLoop (fun _ => true) (fun _ => 1/2) 1000 0 0 = none ∧
    isOkSome (RoomSimulationAugmentation.callLoop (fun _ => false) (fun _ => 1/2) 1 0 0)
      = true :=
  ⟨roomsim_retry_unbounded.1 (fun _ => 1/2) 1000 0 0,
    roomsim_retry_unbounded.2 (fun _ => false) (fun _ => 1/2)
      (fun _ => ⟨by norm_num, by norm_num⟩) 0 0 0 rfl⟩

/-! ### C4: placement validation -/

/-- A draw stream whose fifth value is exactly 0, a legal
`np.random.uniform(0, dim)` outcome that puts the source on the room wall. -/
def cexStream : Nat → ℚ := fun i => if i = 4 then 0 else 1/2

/-- C4 counterexample: a violating placement is not re-sampled — with the
boundary draw `cexStream 4 = 0` (legal for `uniform(0, dim)`), the inside-room
assertion fails and `__call__` crashes with the uncaught `AssertionError`
instead of retrying. -/
theorem placement_not_resampled_cex :
    (0 ≤ cexStream 4 ∧ cexStream 4 < 1) ∧
    RoomSimulationAugmentation.call [] (fun _ => false) cexStream 0 [1] 1 =
      some (.error .assertionError) := by
  refine ⟨⟨by norm_num [cexStream], by norm_num [cexStream]⟩, ?_⟩
  have h4 : cexStream 4 = 0 := by norm_num [cexStream]
  have hloc : RoomSimulationAugmentation.getRandomLocationFrom
      (RoomSimulationAugmentation.generateRoom cexStream 0).1
      (cexStream 4) (cexStream 5) (cexStream 6) = .error .assertionError := by
    rw [h4]
    simp [RoomSimulationAugmentation.getRandomLocationFrom,
      RoomSimulationAugmentation.isInside]
  simp only [RoomSimulationAugmentation.call, RoomSimulationAugmentation.callLoop]
  rw [show (RoomSimulationAugmentation.generateRoom cexStream 0).2 = 4 from rfl]
  simp only [Bool.false_eq_true, if_false, hloc]

/-- C4 amended: `_get_random_location` validates each candidate against the
inside-room predicate and a failing candidate is never returned for use; but
on violation it raises `AssertionError` (no re-sampling), which the retry
loop — catching only `AttributeError` — does not handle. -/
theorem placement_validation_amended (room : RoomGeom) (u1 u2 u3 : ℚ) :
    (∀ loc, RoomSimulationAugmentation.getRandomLocationFrom room u1 u2 u3 = .ok loc →
      RoomSimulationAugmentation.isInside room loc = true) ∧
    (RoomSimulationAugmentation.isInside room
        ⟨u1 * room.length, u2 * room.width, u3 * room.height⟩ = false →
      RoomSimulationAugmentation.getRandomLocationFrom room u1 u2 u3 =
        .error .assertionError) := by
  constructor
  · intro loc hloc
    by_cases hin : RoomSimulationAugmentation.isInside room
        ⟨u1 * room.length, u2 * room.width, u3 * room.height⟩ = true
    · simp only [RoomSimulationAugmentation.getRandomLocationFrom, hin, if_true] at hloc
      cases hloc
      exact hin
    · simp only [RoomSimulationAugmentation.getRandomLocationFrom,
        Bool.not_eq_true] at hloc hin
      rw [hin] at hloc
      simp at hloc
  · intro hfalse
    simp only [RoomSimulationAugmentation.getRandomLocationFrom, hfalse,
      Bool.false_eq_true, if_false]

/-- Witness for the amended C4: a wall placement is rejected, not used. -/
theorem placement_validation_amended_witness :
    RoomSimulationAugmentation.isInside ⟨6, 5, 12/5, 1/2⟩
      ⟨0 * (6 : ℚ), (1/2) * (5 : ℚ), (1/2) * ((12 : ℚ)/5)⟩ = false ∧
    RoomSimulationAugmentation.getRandomLocationFrom ⟨6, 5, 12/5, 1/2⟩ 0 (1/2) (1/2) =
      .error .assertionError := by
  have hf : RoomSimulationAugmentation.isInside ⟨6, 5, 12/5, 1/2⟩
      ⟨0 * (6 : ℚ), (1/2) * (5 : ℚ), (1/2) * ((12 : ℚ)/5)⟩ = false := by
    simp [RoomSimulationAugmentation.isInside]
  exact ⟨hf, (placement_validation_amended ⟨6, 5, 12/5, 1/2⟩ 0 (1/2) (1/2)).2 hf⟩

/-! ### C5: speed ratio 1.0 is a no-op short-circuit -/

/-- C5: with `speed == 1.0` the tempo transform is short-circuited away at
pipeline construction (`if speed != 1.0` in `augment_all`), so the built
transform list does not depend on the tempo transform at all, and a run
configured with only the tempo stage (ratio 1) returns every signal
unchanged. -/
theorem speed_ratio_one_noop (roomT noiseT speedT speedT' : Signal → Signal)
    (withRoom : Bool) (noiseAudios : Option (List Signal)) (s : Signal) :
    buildAugments withRoom noiseAudios 1 roomT noiseT speedT =
      buildAugments withRoom noiseAudios 1 roomT noiseT speedT' ∧
    augmentAllRun false none 1 roomT noiseT speedT [s] = .ok [s] := by
  constructor
  · simp [buildAugments]
  · rfl

/-! ### C6: empty noise library fails at construction -/

/-- C6: constructing the noise transform over an empty noise library fails at
construction time (`assert len(self.noise_audios) > 0`), and in `augment_all`
this aborts the whole run before any per-file processing, whatever the file
list. -/
theorem noise_empty_library_fails (mu sd speed : ℚ) (withRoom : Bool)
    (roomT noiseT speedT : Signal → Signal) (files : List Signal) :
    NoiseAugmentation.init [] mu sd = .error .assertionError ∧
    augmentAllRun withRoom (some []) speed roomT noiseT speedT files =
      .error .assertionError := by
  constructor
  · rfl
  · simp [augmentAllRun, buildAugments, NoiseAugmentation.init]

/-! ### C7: non-positive speed ratio -/

/-- C7 counterexample: constructing the tempo transform with the non-positive
speed ratio −1 succeeds — `__init__` stores the value without validation, so
no error of any kind is raised at construction time. -/
theorem speed_init_no_validation_cex :
    ModifySpeedAugmentation.init (-1) = .ok ⟨-1⟩ := rfl

/-- C7 amended: construction with any speed ratio (including non-positive
ones) succeeds without validation; a non-positive ratio is rejected only at
call time, when the time-stretch routine raises its parameter error. -/
theorem speed_validation_at_call_not_construction :
    (∀ r : ℚ, ModifySpeedAugmentation.init r = .ok ⟨r⟩) ∧
    (∀ r : ℚ, r ≤ 0 → ∀ s : Signal,
      ModifySpeedAugmentation.call ⟨r⟩ s = .error .parameterError) := by
  refine ⟨fun r => rfl, fun r hr s => ?_⟩
  simp [ModifySpeedAugmentation.call, hr]

/-- Witness for the amended C7. -/
theorem speed_validation_at_call_witness :
    ((-1 : ℚ) ≤ 0) ∧
    ModifySpeedAugmentation.call ⟨-1⟩ [1] = .error .parameterError :=
  ⟨by norm_num, speed_validation_at_call_not_construction.2 (-1) (by norm_num) [1]⟩

/-! ### C8: pipeline order and empty-pipeline identity -/

/-- C8: `augment_all` applies the configured transforms to each signal
sequentially in the fixed construction order — room simulation, then noise,
then speed — feeding each transform's output to the next, each applied
exactly once; and the empty transform list is the identity on every signal. -/
theorem pipeline_fixed_order (roomT noiseT speedT : Signal → Signal)
    (lib : List Signal) (r : ℚ) (s : Signal) (hlib : lib ≠ []) (hr : r ≠ 1) :
    augmentAllRun true (some lib) r roomT noiseT speedT [s] =
      .ok [speedT (noiseT (roomT s))] ∧
    applyAugments [] s = s ∧
    augmentAllRun false none 1 roomT noiseT speedT [s] = .ok [s] := by
  refine ⟨?_, rfl, rfl⟩
  have hlen : 0 < lib.length := List.length_pos.mpr hlib
  simp only [augmentAllRun, buildAugments, NoiseAugmentation.init, applyAugments,
    hr, hlen, gt_iff_lt, if_true, if_pos, ne_eq, not_false_iff]
  rfl

/-- Witness for C8: with tagging transforms the output shows the order
room → noise → speed. -/
theorem pipeline_fixed_order_witness :
    (([[1]] : List Signal) ≠ [] ∧ (2 : ℚ) ≠ 1) ∧
    augmentAllRun true (some [[1]]) 2 (fun l => 1 :: l) (fun l => 2 :: l)
      (fun l => 3 :: l) [[5]] = .ok [[3, 2, 1, 5]] :=
  ⟨⟨by simp, by norm_num⟩,
    (pipeline_fixed_order (fun l => 1 :: l) (fun l => 2 :: l) (fun l => 3 :: l)
      [[1]] 2 [5] (by simp) (by norm_num)).1⟩

/-! ### C9: fixed-seed determinism -/

/-- C9: a whole run of `RoomSimulationAugmentation` — construction with a
pre-sampled pool under the hard-coded `np.random.seed(42)`, then one call —
is deterministic: with equal inputs (pool size, simulator-failure behaviour,
signal, loop fuel) two runs produce the same pool geometries and the same
output, and the retry loop picks the same room and placements. -/
theorem roomsim_fixed_seed_deterministic (n n' : Nat) (fails fails' : Nat → Bool)
    (audio audio' : Signal) (fuel fuel' : Nat)
    (h1 : n = n') (h2 : fails = fails') (h3 : audio = audio') (h4 : fuel = fuel') :
    RoomSimulationAugmentation.run n fails audio fuel =
      RoomSimulationAugmentation.run n' fails' audio' fuel' ∧
    ∀ k p, RoomSimulationAugmentation.callLoop fails (seedStream 42) fuel k p =
      RoomSimulationAugmentation.callLoop fails' (seedStream 42) fuel' k p := by
  subst h1; subst h2; subst h3; subst h4
  exact ⟨rfl, fun _ _ => rfl⟩

/-- Witness for C9 at `n = 5`. -/
theorem roomsim_fixed_seed_deterministic_witness :
    RoomSimulationAugmentation.run 5 (fun _ => false) [1] 1 =
      RoomSimulationAugmentation.run 5 (fun _ => false) [1] 1 :=
  (roomsim_fixed_seed_deterministic 5 5 (fun _ => false) (fun _ => false) [1] [1] 1 1
    rfl rfl rfl rfl).1

/-! ### C10: the pool size `n` has no effect on `__call__` -/

/-- C10: for any positive pool sizes `n1, n2`, the same input signal and the
same random-stream state at call time, `__call__` returns identical results,
because it generates a fresh room per call and never reads the pre-sampled
pool `self.rooms` (indeed the result is independent of the pool entirely). -/
theorem roomsim_pool_unused (n1 n2 : Nat) (h1 : 0 < n1) (h2 : 0 < n2)
    (fails : Nat → Bool) (us : Nat → ℚ) (p : Nat) (audio : Signal) (fuel : Nat) :
    RoomSimulationAugmentation.call (RoomSimulationAugmentation.initRoomsOk n1)
        fails us p audio fuel =
      RoomSimulationAugmentation.call (RoomSimulationAugmentation.initRoomsOk n2)
        fails us p audio fuel ∧
    ∀ rooms1 rooms2 : List RoomGeom,
      RoomSimulationAugmentation.call rooms1 fails us p audio fuel =
        RoomSimulationAugmentation.call rooms2 fails us p audio fuel :=
  ⟨rfl, fun _ _ => rfl⟩

/-- Witness for C10 with pool sizes 1 and 2. -/
theorem roomsim_pool_unused_witness :
    0 < 1 ∧ 0 < 2 ∧
    RoomSimulationAugmentation.call (RoomSimulationAugmentation.initRoomsOk 1)
        (fun _ => false) (fun _ => 1/2) 0 [1] 0 =
      RoomSimulationAugmentation.call (RoomSimulationAugmentation.initRoomsOk 2)
        (fun _ => false) (fun _ => 1/2) 0 [1] 0 :=
  ⟨by decide, by decide,
    (roomsim_pool_unused 1 2 (by decide) (by decide) (fun _ => false) (fun _ => 1/2)
      0 [1] 0).1⟩
